import Mathlib

/-!
Shallow embedding of the rustclr runtime-hosting engine (z0x13/rustclr)
for spec verification.

Each definition mirrors one function of the Rust source:
- src/error.rs            → `ClrError`
- src/clr/file.rs         → `is_valid_executable`, `is_dotnet`, `validate_file`
- src/clr/hosting.rs      → `HostState`, `set_current_assembly`,
                            `clear_current_assembly`, `ProvideAssembly`,
                            `ProvideModule`
- src/clr/runtime.rs      → `RuntimeState`, `unload_domain`, `prepare`
- src/clr/mod.rs          → `runSession` (RustClr::run)
- src/com/assembly.rs     → `assemblyRun` (_Assembly::run entry dispatch)
- src/com/appdomain.rs    → `get_assembly`
- src/com/mod.rs          → `CLRCreateInstance` caching

Foreign (COM / Win32) calls are modelled by explicit oracle records whose
fields carry the outcome each foreign call would return; the functions
thread the mutable global state (mutex-guarded statics) explicitly and
record the foreign release calls they issue in a trace list.
-/

namespace RustClr

/-- Error enum from src/error.rs (variants used by the modelled code paths). -/
inductive ClrError where
  | FileReadError (s : String)
  | ApiError (name : String) (hr : Int)
  | MissingArguments
  | CastingError (s : String)
  | InvalidExecutable
  | MethodNotFound
  | PropertyNotFound
  | NotDotNet
  | MetaHostCreationError (s : String)
  | RuntimeInfoError (s : String)
  | RuntimeHostError (s : String)
  | RuntimeStartError
  | DomainCreationError (s : String)
  | NoDomainAvailable
  | NullPointerError (s : String)
  | SafeArrayError (s : String)
  | VariantUnsupported
  | Msg (s : String)
  | InvalidNtHeader
  deriving DecidableEq, Repr

/-! ## Image validator (src/clr/file.rs) -/

/-- Characteristics flag IMAGE_FILE_EXECUTABLE_IMAGE (0x0002). -/
def IMAGE_FILE_EXECUTABLE_IMAGE : Nat := 0x0002

/-- Characteristics flag IMAGE_FILE_DLL (0x2000). -/
def IMAGE_FILE_DLL : Nat := 0x2000

/-- Subsystem value IMAGE_SUBSYSTEM_NATIVE (= 1); note this is a value of
the OptionalHeader.Subsystem field, not a FileHeader.Characteristics flag.
Numerically it coincides with the characteristics flag
IMAGE_FILE_RELOCS_STRIPPED (0x0001). -/
def IMAGE_SUBSYSTEM_NATIVE : Nat := 1

/-- Characteristics flag IMAGE_FILE_RELOCS_STRIPPED (0x0001). -/
def IMAGE_FILE_RELOCS_STRIPPED : Nat := 1

/-- Subsystem value IMAGE_SUBSYSTEM_WINDOWS_CUI (= 3), a standard hostable
console subsystem. -/
def IMAGE_SUBSYSTEM_WINDOWS_CUI : Nat := 3

/-- One IMAGE_DATA_DIRECTORY entry. -/
structure DataDirectory where
  virtualAddress : Nat
  size : Nat
  deriving DecidableEq, Repr

/-- The fields of IMAGE_NT_HEADERS that the validator claims concern:
FileHeader.Characteristics, OptionalHeader.Subsystem, and the
COM-descriptor (managed metadata) data directory entry. The Rust
validator reads characteristics and the COM directory; the subsystem
field is carried so claims about it can be stated. -/
structure NtHeaders where
  characteristics : Nat
  subsystem : Nat
  comDescriptor : DataDirectory
  deriving DecidableEq, Repr

/-- Embedding of is_valid_executable (src/clr/file.rs:76-83). The third
conjunct masks Characteristics with IMAGE_SUBSYSTEM_NATIVE.0 (= 1),
exactly as the source does. -/
def is_valid_executable (h : NtHeaders) : Bool :=
  (h.characteristics &&& IMAGE_FILE_EXECUTABLE_IMAGE != 0)
    && (h.characteristics &&& IMAGE_FILE_DLL == 0)
    && (h.characteristics &&& IMAGE_SUBSYSTEM_NATIVE == 0)

/-- Embedding of is_dotnet (src/clr/file.rs:88-94): the COM descriptor
directory must have non-zero virtual address and non-zero size. -/
def is_dotnet (h : NtHeaders) : Bool :=
  h.comDescriptor.virtualAddress != 0 && h.comDescriptor.size != 0

/-- Embedding of validate_file (src/clr/file.rs:24-40). The argument is
the parsed NT header of the buffer; `none` models a buffer whose header
does not parse (pe.nt_header() returning None). -/
def validate_file (pe : Option NtHeaders) : Except ClrError Unit :=
  match pe with
  | none => .error .InvalidNtHeader
  | some h =>
    if !is_valid_executable h then .error .InvalidExecutable
    else if !is_dotnet h then .error .NotDotNet
    else .ok ()

/-! ## Resolution bridge shared state (src/clr/hosting.rs) -/

/-- AssemblyData (src/clr/hosting.rs:19-22): owned buffer plus identity. -/
structure AssemblyData where
  buffer : List Nat
  identity : String
  deriving DecidableEq, Repr

/-- An in-memory COM stream created by SHCreateMemStream over a byte
buffer; the model keeps the bytes the stream was built over. -/
structure MemStream where
  bytes : List Nat
  deriving DecidableEq, Repr

/-- The mutex-guarded global statics of src/clr/hosting.rs:
CURRENT_ASSEMBLY, PENDING_STREAMS and STREAM_COUNT. -/
structure HostState where
  currentAssembly : Option AssemblyData
  pendingStreams : List MemStream
  streamCount : Nat
  deriving DecidableEq, Repr

/-- SHCreateMemStream: builds an in-memory stream over the given bytes. -/
def SHCreateMemStream (buffer : List Nat) : MemStream :=
  { bytes := buffer }

/-- Embedding of set_current_assembly (src/clr/hosting.rs:33-40): stores
an owned copy of the buffer (buffer.to_vec(), value semantics here)
together with the identity, replacing any previously staged pair. -/
def set_current_assembly (st : HostState) (buffer : List Nat) (identity : String) :
    HostState :=
  { st with currentAssembly := some { buffer := buffer, identity := identity } }

/-- Embedding of clear_current_assembly (src/clr/hosting.rs:44-65):
clears the staged pair and drains PENDING_STREAMS, releasing each
stream. This function has no call site anywhere in the repository. -/
def clear_current_assembly (st : HostState) : HostState :=
  { st with currentAssembly := none, pendingStreams := [] }

/-- HRESULT 0x80070002 (ERROR_FILE_NOT_FOUND), the status both negative
paths of the store return. -/
def E_FILENOTFOUND : Int := 0x80070002

/-- The out-parameters ProvideAssembly writes on success: *passemblyid,
*pcontext and *ppstmassemblyimage. -/
structure ProvideResult where
  assemblyId : Nat
  context : Nat
  stream : MemStream
  deriving DecidableEq, Repr

/-- Embedding of RustClrStore::ProvideAssembly (src/clr/hosting.rs:166-209).
The argument `identity` is the request's lpPostPolicyIdentity string. On a
match it creates a stream over the staged bytes, bumps STREAM_COUNT,
appends the stream (its own retained reference) to PENDING_STREAMS and
returns assembly id 800and context 0; otherwise it returns
E_FILENOTFOUND and leaves the state untouched. -/
def ProvideAssembly (st : HostState) (identity : String) :
    Except Int ProvideResult × HostState :=
  match st.currentAssembly with
  | some data =>
    if data.identity = identity then
      let stream := SHCreateMemStream data.buffer
      ( .ok { assemblyId := 800, context := 0, stream := stream },
        { st with
            streamCount := st.streamCount + 1,
            pendingStreams := st.pendingStreams ++ [stream] } )
    else
      (.error E_FILENOTFOUND, st)
  | none => (.error E_FILENOTFOUND, st)

/-- Embedding of RustClrStore::ProvideModule (src/clr/hosting.rs:213-224):
unconditionally returns E_FILENOTFOUND and touches nothing. -/
def ProvideModule (st : HostState) : Except Int Unit × HostState :=
  (.error E_FILENOTFOUND, st)

/-! ## Entry-point dispatch (src/com/assembly.rs:31-43) -/

/-- The suffix "Main()" the first match arm of _Assembly::run tests the
entry-point string representation against (ends_with). -/
def SUFFIX_MAIN_NO_ARGS : List Char :=
  ['M', 'a', 'i', 'n', '(', ')']

/-- The suffix "Main(System.String[])" the second match arm of
_Assembly::run tests against. -/
def SUFFIX_MAIN_STRING_ARRAY : List Char :=
  ['M', 'a', 'i', 'n', '(', 'S', 'y', 's', 't', 'e', 'm', '.',
   'S', 't', 'r', 'i', 'n', 'g', '[', ']', ')']

/-- The invocation _Assembly::run performs on the entry point: either
entrypoint.invoke(None, None) or entrypoint.invoke(None, Some(args)). -/
inductive EntryInvocation where
  | noArgs
  | withArgs (args : List String)
  deriving DecidableEq, Repr

/-- Embedding of _Assembly::run (src/com/assembly.rs:31-43): the entry
point's string representation (entrypoint.ToString()) is matched, in
order, against the suffix Main() (invoke with no arguments) and the
suffix Main(System.String[]) (invoke with the argument array); any other
shape fails with MethodNotFound. `entryName` is the character sequence
of the string representation; `args` the marshalled string array. -/
def assemblyRun (entryName : List Char) (args : List String) :
    Except ClrError EntryInvocation :=
  if SUFFIX_MAIN_NO_ARGS.isSuffixOf entryName then .ok .noArgs
  else if SUFFIX_MAIN_STRING_ARRAY.isSuffixOf entryName then .ok (.withArgs args)
  else .error .MethodNotFound

/-- The argument array RustClr::run builds for Main (src/clr/mod.rs:136):
self.args.clone().unwrap_or_default(), i.e. the configured arguments in
order, or the empty array when none were configured. -/
def mainArgsOf (cfgArgs : Option (List String)) : List String :=
  cfgArgs.getD []

/-! ## Assembly lookup by containment (src/com/appdomain.rs:43-54) -/

/-- Embedding of _AppDomain::get_assembly: walks the enumerated
(display-name, assembly) pairs in order and returns the first assembly
whose display name contains the requested name as a substring
(Rust String::contains, modelled by List.IsInfix on the characters);
when no display name contains it, fails with Msg "Assembly Not Found". -/
def get_assembly {α : Type} (assemblies : List (List Char × α)) (req : List Char) :
    Except ClrError α :=
  match assemblies with
  | [] => .error (.Msg "Assembly Not Found")
  | (name, asm) :: rest =>
    if req <:+: name then .ok asm else get_assembly rest req

/-! ## Runtime state, unload and foreign-call traces (src/clr/runtime.rs) -/

/-- A foreign call the model records having issued. -/
inductive ForeignCall where
  | unloadDomainCall (domain : Nat)
  | loadLibraryResolve
  | createInstanceInvoke
  deriving DecidableEq, Repr

/-- The mutable fields of RustClrRuntime (src/clr/runtime.rs:30-48) that
the modelled operations read or write; foreign handles are opaque
numeric identifiers. -/
structure RuntimeState where
  identity_assembly : String
  app_domain : Option Nat
  cor_runtime_host : Option Nat
  deriving DecidableEq, Repr

/-- Embedding of RustClrRuntime::unload_domain (src/clr/runtime.rs:183-196):
when both the stored runtime host and the stored domain are present it
issues UnloadDomain on that domain (whose HRESULT outcome is the oracle
`hr`) and propagates the outcome; otherwise it returns Ok doing nothing.
The function takes &self in the source, so the state is returned
unchanged in every case. -/
def unload_domain (hr : Except ClrError Unit) (st : RuntimeState) :
    Except ClrError Unit × RuntimeState × List ForeignCall :=
  match st.cor_runtime_host, st.app_domain with
  | some _, some d => (hr, st, [.unloadDomainCall d])
  | some _, none => (.ok (), st, [])
  | none, _ => (.ok (), st, [])

/-! ## CLRCreateInstance caching (src/com/mod.rs:41-84) -/

/-- The process-wide static CLR_CREATE_INSTANCE: a spin::Once cell that
holds, once initialized, Option of the resolved CLRCreateInstance
function address (None when mscoree.dll could not be loaded).
`nextHandle` generates a distinct identifier per acquired COM handle. -/
structure ProcState where
  clrCreateInstanceCell : Option (Option Nat)
  nextHandle : Nat
  deriving DecidableEq, Repr

/-- The tail of CLRCreateInstance after the Once cell is resolved
(src/com/mod.rs:73-83): with an address present, invoke the foreign
creation entry point (recorded in the trace) whose HRESULT outcome is
the oracle `callResult`; a success acquires a fresh interface handle.
With no address, fail without any foreign call. -/
def CLRCreateInstanceCallThrough (addr : Option Nat) (callResult : Except Int Unit)
    (ps : ProcState) (trace : List ForeignCall) :
    Except ClrError Nat × ProcState × List ForeignCall :=
  match addr with
  | some _ =>
    match callResult with
    | .ok _ =>
      ( .ok ps.nextHandle,
        { ps with nextHandle := ps.nextHandle + 1 },
        trace ++ [.createInstanceInvoke] )
    | .error hr =>
      (.error (.ApiError "CLRCreateInstance" hr), ps, trace ++ [.createInstanceInvoke])
  | none => (.error (.Msg "CLRCreateInstance function not found"), ps, trace)

/-- Embedding of CLRCreateInstance (src/com/mod.rs:58-84): the Once cell
is filled at most once with the resolved function address (the oracle
`resolved` is what LoadLibraryA plus get_proc_address would yield,
recorded as loadLibraryResolve in the trace); every call then invokes
the creation entry point through the cached address. -/
def CLRCreateInstance (resolved : Option Nat) (callResult : Except Int Unit)
    (ps : ProcState) :
    Except ClrError Nat × ProcState × List ForeignCall :=
  match ps.clrCreateInstanceCell with
  | some cached => CLRCreateInstanceCallThrough cached callResult ps []
  | none =>
    CLRCreateInstanceCallThrough resolved callResult
      { ps with clrCreateInstanceCell := some resolved } [.loadLibraryResolve]

/-! ## The session facade (src/clr/mod.rs, src/clr/runtime.rs:67-110) -/

/-- Oracle for the foreign calls RustClrRuntime::prepare makes, in
source order. `identityOfBuffer` is the identity string the runtime
computes for the in-memory image; `needHostControl` is the condition
IsLoadable().is_ok() && !is_started(); `startHr` is the raw status
ICLRuntimeHost::Start returns (non-zero means failure). -/
structure PrepareWorld where
  metaHost : Except ClrError Unit
  runtimeInfo : Except ClrError Unit
  getProcAddr : Except ClrError Unit
  identityManager : Except ClrError Unit
  identityOfBuffer : Except ClrError String
  clrRuntimeHost : Except ClrError Unit
  needHostControl : Bool
  setHostControl : Except ClrError Unit
  startHr : Int
  corHostA : Except ClrError Nat
  createDomain : Except ClrError Nat
  corHostB : Except ClrError Nat

/-- Embedding of RustClrRuntime::prepare (src/clr/runtime.rs:67-110):
meta host, runtime info, identity-manager lookup, identity computation
(assigned to identity_assembly on success), CLR runtime host, then
set_current_assembly staging the buffer in the shared host state,
optional host-control registration and runtime start, ICorRuntimeHost
acquisition, domain creation, and a second ICorRuntimeHost acquisition
stored in the state. Every failure propagates immediately with the
states as they are at that point. -/
def prepare (w : PrepareWorld) (buffer : List Nat) (st : RuntimeState) (g : HostState) :
    Except ClrError Unit × RuntimeState × HostState :=
  match w.metaHost with
  | .error e => (.error e, st, g)
  | .ok _ =>
  match w.runtimeInfo with
  | .error e => (.error e, st, g)
  | .ok _ =>
  match w.getProcAddr with
  | .error e => (.error e, st, g)
  | .ok _ =>
  match w.identityManager with
  | .error e => (.error e, st, g)
  | .ok _ =>
  match w.identityOfBuffer with
  | .error e => (.error e, st, g)
  | .ok ident =>
  let st := { st with identity_assembly := ident }
  match w.clrRuntimeHost with
  | .error e => (.error e, st, g)
  | .ok _ =>
  let g := set_current_assembly g buffer ident
  match (if w.needHostControl then w.setHostControl else .ok ()) with
  | .error e => (.error e, st, g)
  | .ok _ =>
  match (if w.needHostControl then
           (if w.startHr = 0 then Except.ok () else .error ClrError.RuntimeStartError)
         else .ok ()) with
  | .error e => (.error e, st, g)
  | .ok _ =>
  match w.corHostA with
  | .error e => (.error e, st, g)
  | .ok _ =>
  match w.createDomain with
  | .error e => (.error e, st, g)
  | .ok dom =>
  let st := { st with app_domain := some dom }
  match w.corHostB with
  | .error e => (.error e, st, g)
  | .ok host =>
  (.ok (), { st with cor_runtime_host := some host }, g)

/-- Builder-configurable session options of RustClr (src/clr/mod.rs:44-57). -/
structure ClrConfig where
  buffer : List Nat
  redirect_output : Bool
  patch_exit : Bool
  args : Option (List String)
  deriving DecidableEq, Repr

/-- Oracle for the foreign calls RustClr::run makes after prepare, in
source order. -/
structure RunWorld where
  prep : PrepareWorld
  loadBytes : Except ClrError Unit
  stringArrayVariant : Except ClrError Unit
  safeArgs : Except ClrError Unit
  mscorlib : Except ClrError Unit
  patchExitCall : Except ClrError Unit
  redirectCall : Except ClrError Unit
  mainInvoke : Except ClrError Unit
  captureCall : Except ClrError String
  gcResolve : Except ClrError Unit
  gcCollectA : Except ClrError Unit
  gcWaitFinalizers : Except ClrError Unit
  gcCollectB : Except ClrError Unit
  unloadHr : Except ClrError Unit

/-- Embedding of RustClr::run (src/clr/mod.rs:122-184): prepare, fetch
the domain, load the image bytes, marshal the argument array, fetch
mscorlib, optionally patch Exit, optionally redirect output, invoke the
entry point, capture output, run the three GC calls, then unload the
domain and return the captured output. Every step uses the question-mark
operator in the source: its error is returned at once with the global
host state as it stands, and the trace records which UnloadDomain calls
were issued before the return. -/
def runSession (w : RunWorld) (cfg : ClrConfig) (st : RuntimeState) (g : HostState) :
    Except ClrError String × RuntimeState × HostState × List ForeignCall :=
  match prepare w.prep cfg.buffer st g with
  | (.error e, st, g) => (.error e, st, g, [])
  | (.ok _, st, g) =>
  match st.app_domain with
  | none => (.error .NoDomainAvailable, st, g, [])
  | some _ =>
  match w.loadBytes with
  | .error e => (.error e, st, g, [])
  | .ok _ =>
  match w.stringArrayVariant with
  | .error e => (.error e, st, g, [])
  | .ok _ =>
  match w.safeArgs with
  | .error e => (.error e, st, g, [])
  | .ok _ =>
  match w.mscorlib with
  | .error e => (.error e, st, g, [])
  | .ok _ =>
  match (if cfg.patch_exit then w.patchExitCall else .ok ()) with
  | .error e => (.error e, st, g, [])
  | .ok _ =>
  match (if cfg.redirect_output then w.redirectCall else .ok ()) with
  | .error e => (.error e, st, g, [])
  | .ok _ =>
  match w.mainInvoke with
  | .error e => (.error e, st, g, [])
  | .ok _ =>
  match (if cfg.redirect_output then w.captureCall else .ok "") with
  | .error e => (.error e, st, g, [])
  | .ok output =>
  match w.gcResolve with
  | .error e => (.error e, st, g, [])
  | .ok _ =>
  match w.gcCollectA with
  | .error e => (.error e, st, g, [])
  | .ok _ =>
  match w.gcWaitFinalizers with
  | .error e => (.error e, st, g, [])
  | .ok _ =>
  match w.gcCollectB with
  | .error e => (.error e, st, g, [])
  | .ok _ =>
  match unload_domain w.unloadHr st with
  | (.error e, st, calls) => (.error e, st, g, calls)
  | (.ok _, st, calls) => (.ok output, st, g, calls)

/-- A prepare oracle where every foreign call succeeds; the computed
identity is "asmid", the created domain handle 3, host handles 10/11. -/
def prepareAllOk : PrepareWorld where
  metaHost := .ok ()
  runtimeInfo := .ok ()
  getProcAddr := .ok ()
  identityManager := .ok ()
  identityOfBuffer := .ok "asmid"
  clrRuntimeHost := .ok ()
  needHostControl := true
  setHostControl := .ok ()
  startHr := 0
  corHostA := .ok 10
  createDomain := .ok 3
  corHostB := .ok 11

/-- A run oracle where every foreign call succeeds. -/
def runWorldAllOk : RunWorld where
  prep := prepareAllOk
  loadBytes := .ok ()
  stringArrayVariant := .ok ()
  safeArgs := .ok ()
  mscorlib := .ok ()
  patchExitCall := .ok ()
  redirectCall := .ok ()
  mainInvoke := .ok ()
  captureCall := .ok "captured"
  gcResolve := .ok ()
  gcCollectA := .ok ()
  gcWaitFinalizers := .ok ()
  gcCollectB := .ok ()
  unloadHr := .ok ()

/-- A run oracle identical to runWorldAllOk except that loading the
image bytes (Load_3) fails, as when the CLR rejects the image. -/
def runWorldLoadFails : RunWorld :=
  { runWorldAllOk with loadBytes := .error (.ApiError "Load_3" 123) }

/-- A session configured with a two-byte buffer and no options. -/
def sessionConfig : ClrConfig where
  buffer := [77, 90]
  redirect_output := false
  patch_exit := false
  args := none

/-- The fresh runtime state RustClrRuntime::new builds. -/
def initialRuntimeState : RuntimeState where
  identity_assembly := ""
  app_domain := none
  cor_runtime_host := none

/-- A host state carrying one pending stream from earlier resolution
activity and no staged assembly. -/
def initialHostState : HostState where
  currentAssembly := none
  pendingStreams := [{ bytes := [1, 2, 3] }]
  streamCount := 1

end RustClr

namespace RustClr

/-! ## Theorems -/

/-- C3: the source masks FileHeader.Characteristics with the subsystem
value IMAGE_SUBSYSTEM_NATIVE (= 1) instead of reading
OptionalHeader.Subsystem, so a native-subsystem image whose
characteristics are plain EXECUTABLE_IMAGE passes validation: validate
returns Ok on an image that targets the native subsystem, contradicting
the claim that such an image is rejected with InvalidExecutable. -/
theorem validate_accepts_native_subsystem_image :
    validate_file (some { characteristics := IMAGE_FILE_EXECUTABLE_IMAGE,
                          subsystem := IMAGE_SUBSYSTEM_NATIVE,
                          comDescriptor := { virtualAddress := 0x2008, size := 0x48 } })
      = .ok ()
    ∧ IMAGE_SUBSYSTEM_NATIVE = 1 := by
  constructor
  · rfl
  · rfl

/-- C8: a managed console executable whose characteristics additionally
carry IMAGE_FILE_RELOCS_STRIPPED (0x0001) — executable, not a library,
hostable console subsystem, non-zero managed-metadata directory — is
rejected with InvalidExecutable instead of the claimed Ok, because the
validator masks characteristics with the numerically equal constant
IMAGE_SUBSYSTEM_NATIVE (= 1). -/
theorem validate_rejects_relocs_stripped_managed_image :
    validate_file (some { characteristics := IMAGE_FILE_EXECUTABLE_IMAGE + IMAGE_FILE_RELOCS_STRIPPED,
                          subsystem := IMAGE_SUBSYSTEM_WINDOWS_CUI,
                          comDescriptor := { virtualAddress := 0x2008, size := 0x48 } })
      = .error .InvalidExecutable
    ∧ is_dotnet { characteristics := IMAGE_FILE_EXECUTABLE_IMAGE + IMAGE_FILE_RELOCS_STRIPPED,
                  subsystem := IMAGE_SUBSYSTEM_WINDOWS_CUI,
                  comDescriptor := { virtualAddress := 0x2008, size := 0x48 } } = true := by
  constructor
  · rfl
  · rfl

/-- C5: when nothing is staged, or the staged identity differs from the
request's post-policy identity, ProvideAssembly returns the not-found
HRESULT and leaves the shared state exactly as it was (no stream is
created or registered); and ProvideModule returns not-found
unconditionally, also leaving the state unchanged. -/
theorem provide_rejects_unmatched (st : HostState) (identity : String)
    (hmiss : st.currentAssembly = none
      ∨ ∀ d, st.currentAssembly = some d → d.identity ≠ identity) :
    ProvideAssembly st identity = (.error E_FILENOTFOUND, st)
    ∧ ProvideModule st = (.error E_FILENOTFOUND, st) := by
  refine ⟨?_, rfl⟩
  unfold ProvideAssembly
  rcases hcur : st.currentAssembly with _ | d
  · rfl
  · rcases hmiss with hnone | hne
    · rw [hcur] at hnone; cases hnone
    · have hid : d.identity ≠ identity := hne d hcur
      simp [hid]

/-- Witness for C5 at a concrete mismatching state. -/
theorem provide_rejects_unmatched_witness :
    ProvideAssembly { currentAssembly := some { buffer := [1, 2], identity := "A" },
                      pendingStreams := [], streamCount := 0 } "B"
      = (.error E_FILENOTFOUND,
         { currentAssembly := some { buffer := [1, 2], identity := "A" },
           pendingStreams := [], streamCount := 0 }) :=
  (provide_rejects_unmatched _ "B" (Or.inr (by intro d hd; cases hd; decide))).1

/-- C6: when the staged pair matches the requested identity,
ProvideAssembly succeeds, the returned stream is built over exactly the
staged bytes (so its length equals the staged image length), the
synthetic dependency id is the non-zero constant 800, and the stream is
appended to the pending-stream list. -/
theorem provide_serves_match (st : HostState) (d : AssemblyData)
    (hcur : st.currentAssembly = some d) :
    ProvideAssembly st d.identity
      = ( .ok { assemblyId := 800, context := 0, stream := SHCreateMemStream d.buffer },
          { st with
              streamCount := st.streamCount + 1,
              pendingStreams := st.pendingStreams ++ [SHCreateMemStream d.buffer] } )
    ∧ (SHCreateMemStream d.buffer).bytes.length = d.buffer.length
    ∧ (800 : Nat) ≠ 0 := by
  refine ⟨?_, rfl, by decide⟩
  unfold ProvideAssembly
  rw [hcur]
  simp

/-- Witness for C6 at a concrete staged state. -/
theorem provide_serves_match_witness :
    ProvideAssembly { currentAssembly := some { buffer := [77, 90, 0], identity := "A" },
                      pendingStreams := [{ bytes := [9] }], streamCount := 4 } "A"
      = ( .ok { assemblyId := 800, context := 0, stream := { bytes := [77, 90, 0] } },
          { currentAssembly := some { buffer := [77, 90, 0], identity := "A" },
            pendingStreams := [{ bytes := [9] }, { bytes := [77, 90, 0] }],
            streamCount := 5 }) :=
  (provide_serves_match _ { buffer := [77, 90, 0], identity := "A" } rfl).1

/-- C10: set_current_assembly stores exactly the byte value of the
caller's buffer at call time together with the identity, replacing any
previously staged pair (the Option slot holds at most one pair, so the
most recent call wins), without touching the pending-stream list or the
stream counter; a later matching resolution request is served from that
stored byte value. Ownership: the Rust source copies the bytes with
buffer.to_vec(), which the value semantics of the stored list models, so
later mutation or deallocation of the caller's buffer cannot affect the
staged bytes. -/
theorem set_current_assembly_stages_copy (st : HostState) (buf : List Nat) (id : String) :
    (set_current_assembly st buf id).currentAssembly
        = some { buffer := buf, identity := id }
    ∧ (set_current_assembly st buf id).pendingStreams = st.pendingStreams
    ∧ (set_current_assembly st buf id).streamCount = st.streamCount
    ∧ (∀ d, (set_current_assembly st buf id).currentAssembly = some d
        → d = { buffer := buf, identity := id })
    ∧ (ProvideAssembly (set_current_assembly st buf id) id).1
        = .ok { assemblyId := 800, context := 0, stream := { bytes := buf } } := by
  refine ⟨rfl, rfl, rfl, ?_, ?_⟩
  · intro d hd
    exact (by simpa [set_current_assembly] using hd : _ = d).symm
  · simp [set_current_assembly, ProvideAssembly, SHCreateMemStream]

/-- Witness for C10 on a concrete prior state that already had a
different pair staged. -/
theorem set_current_assembly_stages_copy_witness :
    (set_current_assembly
        { currentAssembly := some { buffer := [1], identity := "old" },
          pendingStreams := [], streamCount := 2 } [5, 6] "new").currentAssembly
      = some { buffer := [5, 6], identity := "new" } :=
  (set_current_assembly_stages_copy
    { currentAssembly := some { buffer := [1], identity := "old" },
      pendingStreams := [], streamCount := 2 } [5, 6] "new").1

/-- The two suffixes the entry-point dispatch tests are mutually
exclusive: a string representation ending in Main(System.String[])
cannot also end in Main(), since the two suffixes disagree on their
common length. -/
theorem main_suffix_disjoint (s : List Char)
    (h : SUFFIX_MAIN_STRING_ARRAY.isSuffixOf s = true) :
    SUFFIX_MAIN_NO_ARGS.isSuffixOf s = false := by
  by_contra hne
  rw [Bool.not_eq_false] at hne
  have h1 := List.isSuffixOf_iff_suffix.mp hne
  have h2 := List.isSuffixOf_iff_suffix.mp h
  rcases List.suffix_or_suffix_of_suffix h1 h2 with hc | hc
  · exact absurd hc (by decide)
  · exact absurd hc (by decide)

/-- C4: entry-point dispatch recognizes exactly the two suffix shapes of
_Assembly::run: an entry point of the no-argument shape is invoked with
no arguments whatever arguments the session was configured with; an
entry point of the string-array shape is invoked with exactly the
configured argument array, in order, the empty array when none were
configured; every other shape fails with MethodNotFound. -/
theorem entry_dispatch (entry : List Char) (cfgArgs : Option (List String)) :
    (SUFFIX_MAIN_NO_ARGS.isSuffixOf entry = true →
      assemblyRun entry (mainArgsOf cfgArgs) = .ok .noArgs)
    ∧ (SUFFIX_MAIN_STRING_ARRAY.isSuffixOf entry = true →
      assemblyRun entry (mainArgsOf cfgArgs) = .ok (.withArgs (mainArgsOf cfgArgs)))
    ∧ (SUFFIX_MAIN_NO_ARGS.isSuffixOf entry = false →
      SUFFIX_MAIN_STRING_ARRAY.isSuffixOf entry = false →
      assemblyRun entry (mainArgsOf cfgArgs) = .error .MethodNotFound)
    ∧ (cfgArgs = none → mainArgsOf cfgArgs = []) := by
  refine ⟨?_, ?_, ?_, ?_⟩
  · intro h
    simp [assemblyRun, h]
  · intro h
    have hno := main_suffix_disjoint entry h
    simp [assemblyRun, hno, h]
  · intro h1 h2
    simp [assemblyRun, h1, h2]
  · intro h
    simp [mainArgsOf, h]

/-- Witness for C4: a no-argument entry point ignores a configured
argument, and a string-array entry point receives the configured
arguments in order. -/
theorem entry_dispatch_witness :
    assemblyRun ['V', 'o', 'i', 'd', ' ', 'M', 'a', 'i', 'n', '(', ')']
        (mainArgsOf (some ["x"])) = .ok .noArgs
    ∧ assemblyRun
        ['V', 'o', 'i', 'd', ' ', 'M', 'a', 'i', 'n', '(', 'S', 'y', 's', 't',
         'e', 'm', '.', 'S', 't', 'r', 'i', 'n', 'g', '[', ']', ')']
        (mainArgsOf (some ["a", "b"])) = .ok (.withArgs ["a", "b"]) :=
  ⟨(entry_dispatch _ _).1 (by decide), (entry_dispatch _ _).2.1 (by decide)⟩

/-- The lookup fails with the Assembly Not Found message exactly when no
enumerated display name contains the requested characters. -/
theorem get_assembly_error_iff {α : Type} (l : List (List Char × α)) (req : List Char) :
    get_assembly l req = .error (.Msg "Assembly Not Found")
      ↔ ∀ p ∈ l, ¬ req <:+: p.1 := by
  induction l with
  | nil =>
    constructor
    · intro _ p hp
      cases hp
    · intro _
      rfl
  | cons hd tl ih =>
    obtain ⟨name, asm⟩ := hd
    have hstep : get_assembly ((name, asm) :: tl) req
        = if req <:+: name then .ok asm else get_assembly tl req := rfl
    rw [hstep, List.forall_mem_cons]
    by_cases hc : req <:+: name
    · rw [if_pos hc]
      constructor
      · intro h
        exact Except.noConfusion h
      · rintro ⟨hn, _⟩
        exact absurd hc hn
    · rw [if_neg hc, ih]
      constructor
      · intro h
        exact ⟨hc, h⟩
      · rintro ⟨_, h⟩
        exact h

/-- The lookup returns the first assembly, in enumeration order, whose
display name contains the requested characters. -/
theorem get_assembly_first_match {α : Type} (req : List Char)
    (pre : List (List Char × α)) (name : List Char) (asm : α)
    (suf : List (List Char × α)) :
    (∀ p ∈ pre, ¬ req <:+: p.1) → req <:+: name →
      get_assembly (pre ++ (name, asm) :: suf) req = .ok asm := by
  induction pre with
  | nil =>
    intro _ hname
    simp [get_assembly, hname]
  | cons q qs ih =>
    intro hpre hname
    obtain ⟨qn, qa⟩ := q
    have hq : ¬ req <:+: qn := hpre (qn, qa) (List.mem_cons_self _ _)
    have hqs : ∀ p ∈ qs, ¬ req <:+: p.1 := fun p hp => hpre p (List.mem_cons_of_mem _ hp)
    simp [get_assembly, hq, ih hqs hname]

/-- C9: _AppDomain::get_assembly returns the first assembly, in
enumeration order, whose display string contains the requested name as a
substring (containment, not exact equality), and it fails with the
Assembly Not Found error exactly when no display string contains the
requested name. -/
theorem get_assembly_containment_spec {α : Type} (l : List (List Char × α))
    (req : List Char) :
    (get_assembly l req = .error (.Msg "Assembly Not Found")
      ↔ ∀ p ∈ l, ¬ req <:+: p.1)
    ∧ (∀ pre name asm suf, l = pre ++ (name, asm) :: suf → req <:+: name →
        (∀ p ∈ pre, ¬ req <:+: p.1) → get_assembly l req = .ok asm) := by
  refine ⟨get_assembly_error_iff l req, ?_⟩
  intro pre name asm suf hl hname hpre
  subst hl
  exact get_assembly_first_match req pre name asm suf hpre hname

/-- Witness for C9: the request mscorlib matches a display name that
merely contains it, after skipping a non-matching entry. -/
theorem get_assembly_containment_spec_witness :
    get_assembly
        [(['S', 'y', 's'], 2),
         (['x', 'm', 's', 'c', 'o', 'r', 'l', 'i', 'b', 'y'], 1)]
        ['m', 's', 'c', 'o', 'r', 'l', 'i', 'b'] = .ok 1 :=
  (get_assembly_containment_spec _ _).2 [(['S', 'y', 's'], 2)] _ 1 []
    rfl (by decide) (by decide)

/-- C2 counterexample: starting from a prepared runtime (host and domain
both stored), unload_domain issues UnloadDomain on domain 3, and a
second call on the state the first returned issues UnloadDomain on the
same domain 3 again — the second call is not a no-op and the context is
released twice, refuting the claim. -/
theorem unload_domain_double_release :
    (unload_domain (.ok ())
        { identity_assembly := "id", app_domain := some 3, cor_runtime_host := some 7 }).2.2
      = [ForeignCall.unloadDomainCall 3]
    ∧ (unload_domain (.ok ())
        (unload_domain (.ok ())
          { identity_assembly := "id", app_domain := some 3,
            cor_runtime_host := some 7 }).2.1).2.2
      = [ForeignCall.unloadDomainCall 3] :=
  ⟨rfl, rfl⟩

/-- C2 amended: unload_domain never mutates the runtime state (it takes
a shared reference), so whenever the runtime host and the domain are
both stored every call — including a repeated one — issues UnloadDomain
on the same stored context and propagates that call's outcome; a call is
a no-op returning Ok only when the host or the domain is absent. -/
theorem unload_domain_behavior (hr : Except ClrError Unit) (st : RuntimeState) :
    (unload_domain hr st).2.1 = st
    ∧ (∀ h d, st.cor_runtime_host = some h → st.app_domain = some d →
        unload_domain hr st = (hr, st, [.unloadDomainCall d]))
    ∧ ((st.cor_runtime_host = none ∨ st.app_domain = none) →
        unload_domain hr st = (.ok (), st, [])) := by
  obtain ⟨ida, ad, ch⟩ := st
  refine ⟨?_, ?_, ?_⟩
  · rcases ch with _ | h <;> rcases ad with _ | d <;> rfl
  · intro h d hch had
    cases hch
    cases had
    rfl
  · intro hor
    rcases hor with h1 | h1
    · cases h1
      rcases ad with _ | d <;> rfl
    · cases h1
      rcases ch with _ | h <;> rfl

/-- Witness for C2 amended: on a fresh runtime state (nothing stored)
unload_domain is a no-op returning Ok. -/
theorem unload_domain_behavior_witness :
    unload_domain (.ok ())
        { identity_assembly := "", app_domain := none, cor_runtime_host := none }
      = (.ok (),
         { identity_assembly := "", app_domain := none, cor_runtime_host := none },
         []) :=
  (unload_domain_behavior (.ok ())
    { identity_assembly := "", app_domain := none, cor_runtime_host := none }).2.2
    (Or.inl rfl)

/-- C7 counterexample: with the Once cell empty, a first successful call
resolves the library (loadLibraryResolve) and acquires handle 0; a
second call skips the resolution but still invokes the foreign creation
entry point and acquires the distinct fresh handle 1 — the meta-locator
handle is not reused from a cache, refuting the claim that handles are
cached after the first successful resolution. -/
theorem clr_create_instance_fresh_handles :
    CLRCreateInstance (some 55) (.ok ())
        { clrCreateInstanceCell := none, nextHandle := 0 }
      = (.ok 0, { clrCreateInstanceCell := some (some 55), nextHandle := 1 },
         [ForeignCall.loadLibraryResolve, ForeignCall.createInstanceInvoke])
    ∧ CLRCreateInstance (some 55) (.ok ())
        { clrCreateInstanceCell := some (some 55), nextHandle := 1 }
      = (.ok 1, { clrCreateInstanceCell := some (some 55), nextHandle := 2 },
         [ForeignCall.createInstanceInvoke])
    ∧ (0 : Nat) ≠ 1 :=
  ⟨rfl, rfl, by decide⟩

/-- C7 amended: what is cached process-wide by the one-time
initialization is the resolved CLRCreateInstance function address, not
any handle: once the cell is filled, no call resolves the library again
and the cell keeps its value, yet every call with a resolved address
still invokes the foreign creation entry point afresh; the first call
fills the cell and performs the resolution. -/
theorem clr_create_instance_caches_address (resolved : Option Nat)
    (callResult : Except Int Unit) (ps : ProcState) :
    (∀ c, ps.clrCreateInstanceCell = some c →
      ForeignCall.loadLibraryResolve ∉ (CLRCreateInstance resolved callResult ps).2.2
      ∧ (CLRCreateInstance resolved callResult ps).2.1.clrCreateInstanceCell = some c
      ∧ (∀ a, c = some a →
          ForeignCall.createInstanceInvoke ∈ (CLRCreateInstance resolved callResult ps).2.2))
    ∧ (ps.clrCreateInstanceCell = none →
      (CLRCreateInstance resolved callResult ps).2.1.clrCreateInstanceCell = some resolved
      ∧ ForeignCall.loadLibraryResolve ∈ (CLRCreateInstance resolved callResult ps).2.2) := by
  obtain ⟨cell, n⟩ := ps
  constructor
  · intro c hc
    cases hc
    rcases c with _ | a
    · refine ⟨by simp [CLRCreateInstance, CLRCreateInstanceCallThrough], rfl, ?_⟩
      intro a ha
      cases ha
    · rcases callResult with _ | hrv <;>
        exact ⟨by simp [CLRCreateInstance, CLRCreateInstanceCallThrough], rfl,
               fun a ha => by simp [CLRCreateInstance, CLRCreateInstanceCallThrough]⟩
  · intro hc
    cases hc
    rcases resolved with _ | addr
    · exact ⟨rfl, by simp [CLRCreateInstance, CLRCreateInstanceCallThrough]⟩
    · rcases callResult with _ | hrv <;>
        exact ⟨rfl, by simp [CLRCreateInstance, CLRCreateInstanceCallThrough]⟩

/-- Witness for C7 amended: a call on an already-filled cell performs no
library resolution. -/
theorem clr_create_instance_caches_address_witness :
    ForeignCall.loadLibraryResolve ∉
      (CLRCreateInstance (some 9) (.ok ())
        { clrCreateInstanceCell := some (some 4), nextHandle := 5 }).2.2 :=
  ((clr_create_instance_caches_address (some 9) (.ok ())
    { clrCreateInstanceCell := some (some 4), nextHandle := 5 }).1 (some 4) rfl).1

/-- C1: evaluated on a session whose prepare succeeded (staging the
image under identity asmid) and whose Load_3 call then fails, RustClr::run
propagates the error at once: no UnloadDomain is issued, the staged
Image/AssemblyIdentity pair is still present in the shared state and the
pending stream is still registered; and even on a fully successful run
(which does unload the domain) the staged pair and the pending stream
are never cleared — clear_current_assembly has no call site. This
refutes the claimed teardown path. -/
theorem run_error_skips_teardown :
    (runSession runWorldLoadFails sessionConfig initialRuntimeState initialHostState).1
      = .error (.ApiError "Load_3" 123)
    ∧ (runSession runWorldLoadFails sessionConfig initialRuntimeState
        initialHostState).2.2.1.currentAssembly
      = some { buffer := [77, 90], identity := "asmid" }
    ∧ (runSession runWorldLoadFails sessionConfig initialRuntimeState
        initialHostState).2.2.1.pendingStreams
      = [{ bytes := [1, 2, 3] }]
    ∧ (runSession runWorldLoadFails sessionConfig initialRuntimeState
        initialHostState).2.2.2 = []
    ∧ (runSession runWorldAllOk sessionConfig initialRuntimeState initialHostState).1
      = .ok ""
    ∧ (runSession runWorldAllOk sessionConfig initialRuntimeState
        initialHostState).2.2.2 = [ForeignCall.unloadDomainCall 3]
    ∧ (runSession runWorldAllOk sessionConfig initialRuntimeState
        initialHostState).2.2.1.currentAssembly
      = some { buffer := [77, 90], identity := "asmid" }
    ∧ (runSession runWorldAllOk sessionConfig initialRuntimeState
        initialHostState).2.2.1.pendingStreams
      = [{ bytes := [1, 2, 3] }] :=
  ⟨rfl, rfl, rfl, rfl, rfl, rfl, rfl, rfl⟩

end RustClr
